import Mathlib

/-!
Verification of the CARL system's security core against its specification.

The development shallowly embeds the Python sources:
* `carl_zkp_prototype.py` (`SimpleZKP`) — commitment / challenge / proof
  sessions over SHA-256;
* `carl_security_zkp.py` (`ZeroKnowledgeProof`, `GDPRCompliance`,
  `CarlSecurityManager`) — the biometric possession protocol, the consent
  and access ledger, and the registration orchestrator;
* the AES-256-GCM vault, whose cipher lives in an external library, is
  modelled from the spec as CTR-mode keystream XOR plus a polynomial
  authentication tag over an abstract field.

Python byte strings and (UTF-8 encoded) text strings are embedded as
`List Nat` of byte values; `datetime` values as `Nat` seconds; the
nondeterministic draws (`secrets.token_bytes`, `secrets.token_hex`,
`datetime.now`) become explicit oracle parameters.  SHA-256 is implemented
in full so that protocol runs evaluate on concrete inputs.
-/

namespace Sha256

/-- Right rotation of a 32-bit word held in a `Nat`. -/
def rotr (n x : Nat) : Nat :=
  ((x >>> n) ||| (x <<< (32 - n))) &&& 0xFFFFFFFF

/-- 32-bit modular addition. -/
def add32 (a b : Nat) : Nat :=
  (a + b) % 4294967296

/-- SHA-256 big sigma 0. -/
def bsig0 (x : Nat) : Nat := rotr 2 x ^^^ rotr 13 x ^^^ rotr 22 x

/-- SHA-256 big sigma 1. -/
def bsig1 (x : Nat) : Nat := rotr 6 x ^^^ rotr 11 x ^^^ rotr 25 x

/-- SHA-256 small sigma 0. -/
def ssig0 (x : Nat) : Nat := rotr 7 x ^^^ rotr 18 x ^^^ (x >>> 3)

/-- SHA-256 small sigma 1. -/
def ssig1 (x : Nat) : Nat := rotr 17 x ^^^ rotr 19 x ^^^ (x >>> 10)

/-- SHA-256 choose function (`¬x` taken within 32 bits). -/
def ch (x y z : Nat) : Nat := (x &&& y) ^^^ ((x ^^^ 0xFFFFFFFF) &&& z)

/-- SHA-256 majority function. -/
def maj (x y z : Nat) : Nat := (x &&& y) ^^^ (x &&& z) ^^^ (y &&& z)

/-- The 64 SHA-256 round constants. -/
def roundK : List Nat :=
  [1116352408, 1899447441, 3049323471, 3921009573,
   961987163, 1508970993, 2453635748, 2870763221,
   3624381080, 310598401, 607225278, 1426881987,
   1925078388, 2162078206, 2614888103, 3248222580,
   3835390401, 4022224774, 264347078, 604807628,
   770255983, 1249150122, 1555081692, 1996064986,
   2554220882, 2821834349, 2952996808, 3210313671,
   3336571891, 3584528711, 113926993, 338241895,
   666307205, 773529912, 1294757372, 1396182291,
   1695183700, 1986661051, 2177026350, 2456956037,
   2730485921, 2820302411, 3259730800, 3345764771,
   3516065817, 3600352804, 4094571909, 275423344,
   430227734, 506948616, 659060556, 883997877,
   958139571, 1322822218, 1537002063, 1747873779,
   1955562222, 2024104815, 2227730452, 2361852424,
   2428436474, 2756734187, 3204031479, 3329325298]

/-- The SHA-256 initial hash state. -/
def initH : List Nat :=
  [1779033703, 3144134277, 1013904242, 2773480762,
   1359893119, 2600822924, 528734635, 1541459225]

/-- `n` bytes of `v`, big-endian. -/
def bytesBE : Nat → Nat → List Nat
  | 0, _ => []
  | m + 1, v => bytesBE m (v >>> 8) ++ [v &&& 0xFF]

/-- SHA-256 padding: append `0x80`, zeros to 56 mod 64, and the bit length. -/
def padMsg (msg : List Nat) : List Nat :=
  let len := msg.length
  let zeros := (119 - len % 64) % 64
  msg ++ [0x80] ++ List.replicate zeros 0 ++ bytesBE 8 (len * 8)

/-- Group bytes into 32-bit words, big-endian. -/
def wordsOfBytes : List Nat → List Nat
  | a :: b :: c :: d :: rest =>
      (((a * 256 + b) * 256 + c) * 256 + d) :: wordsOfBytes rest
  | _ => []

/-- Split a word list into 16-word blocks (structural recursion on a fuel
bound so that the kernel can evaluate it). -/
def blocks16Aux : Nat → List Nat → List (List Nat)
  | 0, _ => []
  | _, [] => []
  | fuel + 1, x :: rest =>
      (x :: rest).take 16 :: blocks16Aux fuel ((x :: rest).drop 16)

/-- Split a word list into 16-word blocks. -/
def blocks16 (l : List Nat) : List (List Nat) :=
  blocks16Aux l.length l

/-- Extend the message schedule, building it head-first (the head of the
accumulator is the most recent word `w_{t-1}`). -/
def schedRev (rw : List Nat) : Nat → List Nat
  | 0 => rw
  | n + 1 =>
      let nw := add32 (add32 (ssig1 (rw.getD 1 0)) (rw.getD 6 0))
                      (add32 (ssig0 (rw.getD 14 0)) (rw.getD 15 0))
      schedRev (nw :: rw) n

/-- The 64-word message schedule of a 16-word block. -/
def schedule (block : List Nat) : List Nat :=
  (schedRev block.reverse 48).reverse

/-- One SHA-256 round on the 8-word working state. -/
def compressStep (st : List Nat) (k w : Nat) : List Nat :=
  match st with
  | [a, b, c, d, e, f, g, h] =>
      let t1 := add32 h (add32 (bsig1 e) (add32 (ch e f g) (add32 k w)))
      let t2 := add32 (bsig0 a) (maj a b c)
      [add32 t1 t2, a, b, c, add32 d t1, e, f, g]
  | other => other

/-- Compress one 16-word block into the chaining state. -/
def compressBlock (h : List Nat) (block : List Nat) : List Nat :=
  let st := (List.zip roundK (schedule block)).foldl
    (fun s p => compressStep s p.1 p.2) h
  List.zipWith add32 h st

/-- SHA-256 of a byte list, as a list of 32 bytes. -/
def sha256 (msg : List Nat) : List Nat :=
  let hf := (blocks16 (wordsOfBytes (padMsg msg))).foldl compressBlock initH
  (hf.map (bytesBE 4)).foldr (· ++ ·) []

/-- ASCII code of a lowercase hex digit. -/
def hexChar (n : Nat) : Nat := if n < 10 then 48 + n else 87 + n

/-- Lowercase hex encoding of a byte list, as ASCII byte values
(Python's `hexdigest`). -/
def toHex (bs : List Nat) : List Nat :=
  bs.foldr (fun b acc => hexChar (b / 16) :: hexChar (b % 16) :: acc) []

/-- `hashlib.sha256(msg).hexdigest()` as a byte list of ASCII codes. -/
def sha256hex (msg : List Nat) : List Nat :=
  toHex (sha256 msg)

/-- UTF-8 / ASCII bytes of a Lean string literal (used only to write down
concrete test vectors and inputs). -/
def strBytes (s : String) : List Nat :=
  s.toList.map Char.toNat

end Sha256

namespace Dict

/-- Python `dict.get`: first binding of a key in an association list. -/
def lookupD {κ α : Type} [DecidableEq κ] (k : κ) : List (κ × α) → Option α
  | [] => none
  | (k', v) :: rest => if k' = k then some v else lookupD k rest

/-- Python `del d[k]`: drop the binding of a key. -/
def removeD {κ α : Type} [DecidableEq κ] (k : κ) (l : List (κ × α)) :
    List (κ × α) :=
  l.filter (fun p => decide (p.1 ≠ k))

/-- Python `d[k] = v`: bind a key, shadowing any previous binding. -/
def setD {κ α : Type} [DecidableEq κ] (k : κ) (v : α) (l : List (κ × α)) :
    List (κ × α) :=
  (k, v) :: removeD k l

end Dict

namespace SimpleZKP

/-- A stored session of `SimpleZKP.active_sessions`
(`carl_zkp_prototype.py`): user id, commitment, challenge and the two
timestamps, all times in seconds. -/
structure Session where
  user_id : List Nat
  commitment : List Nat
  challenge : List Nat
  created_at : Nat
  expires_at : Nat
deriving DecidableEq

/-- The `active_sessions` dict, keyed by session id. -/
abbrev Store := List (List Nat × Session)

/-- `SimpleZKP.create_commitment`: `commitment = H(secret || randomness)`;
the random draw is an explicit parameter. -/
def create_commitment (secret randomness : List Nat) : List Nat × List Nat :=
  (Sha256.sha256hex (secret ++ randomness), randomness)

/-- `SimpleZKP.generate_proof`: `proof = H(secret || challenge || randomness)`. -/
def generate_proof (secret challenge randomness : List Nat) : List Nat :=
  Sha256.sha256hex (secret ++ challenge ++ randomness)

/-- `SimpleZKP.create_challenge`: store a fresh session; the session id, the
challenge and the current time are oracle parameters (in the source they come
from `secrets.token_hex` and `datetime.now`). -/
def create_challenge (user_id commitment : List Nat) (ttl_seconds : Nat)
    (session_id challenge : List Nat) (now : Nat) (st : Store) : Store :=
  Dict.setD session_id
    { user_id := user_id, commitment := commitment, challenge := challenge,
      created_at := now, expires_at := now + ttl_seconds } st

/-- `SimpleZKP.verify_proof`: look the session up; a missing session fails; an
expired session is deleted and fails; otherwise the proof is accepted iff it
starts with the first 16 hex characters of `H(secret || challenge)`, and the
session is deleted only when the proof is accepted.  Returns the result
together with the updated store. -/
def verify_proof (st : Store) (session_id proof secret : List Nat)
    (now : Nat) : Bool × Store :=
  match Dict.lookupD session_id st with
  | none => (false, st)
  | some s =>
      if s.expires_at < now then
        (false, Dict.removeD session_id st)
      else
        let expectedPre := (Sha256.sha256hex (secret ++ s.challenge)).take 16
        let is_valid := expectedPre.isPrefixOf proof
        (is_valid, if is_valid then Dict.removeD session_id st else st)

end SimpleZKP

/-- The concrete secret `K = "a"` of the C1 scenario. -/
def c1secret : List Nat := Sha256.strBytes "a"

/-- A possible output of `secrets.token_hex(32)`: sixty-four `'0'`
characters, used as the session's challenge. -/
def c1chal : List Nat :=
  Sha256.strBytes "0000000000000000000000000000000000000000000000000000000000000000"

/-- A possible output of `secrets.token_bytes(32)`: thirty-two zero bytes,
used as the commitment randomness. -/
def c1rand : List Nat := List.replicate 32 0

/-- The oracle-drawn session id of the C1 scenario. -/
def c1sid : List Nat := Sha256.strBytes "s"

/-- The session store right after
`create_challenge("U2", commitment_for_secret_K, 300)`. -/
def c1store : SimpleZKP.Store :=
  SimpleZKP.create_challenge (Sha256.strBytes "U2")
    (SimpleZKP.create_commitment c1secret c1rand).1 300 c1sid c1chal 0 []

namespace ZeroKnowledgeProof

/-- A stored session of `ZeroKnowledgeProof.proofs_cache`
(`carl_security_zkp.py`): user id, commitment, salt, challenge and the two
timestamps, all times in seconds. -/
structure Session where
  user_id : List Nat
  commitment : List Nat
  salt : List Nat
  challenge : List Nat
  created_at : Nat
  expires_at : Nat
deriving DecidableEq

/-- The `proofs_cache` dict, keyed by session id. -/
abbrev Store := List (List Nat × Session)

/-- `ZeroKnowledgeProof.generate_commitment`:
`commitment = H(secret || salt)`; the salt, when freshly drawn in the source,
is an explicit parameter here. -/
def generate_commitment (secret salt : List Nat) : List Nat × List Nat :=
  (Sha256.sha256hex (secret ++ salt), salt)

/-- `ZeroKnowledgeProof.verify_commitment`: recompute the commitment and
compare (the source's `hmac.compare_digest` is equality). -/
def verify_commitment (secret salt commitment : List Nat) : Bool :=
  (generate_commitment secret salt).1 == commitment

/-- `ZeroKnowledgeProof.generate_proof` (only the `"proof"` field matters to
the callers): `proof = H(secret || challenge || salt)`. -/
def generate_proof (secret challenge salt : List Nat) : List Nat :=
  Sha256.sha256hex (secret ++ challenge ++ salt)

/-- `ZeroKnowledgeProof.verify_proof`: check the commitment, then compare the
submitted proof with the regenerated one. -/
def verify_proof (commitment challenge proof secret salt : List Nat) : Bool :=
  verify_commitment secret salt commitment &&
    (generate_proof secret challenge salt == proof)

/-- `ZeroKnowledgeProof.create_biometric_zkp_session`: commit to the
biometric hash, draw a challenge, and store the session with a five-minute
expiry; the salt, challenge, session id and current time are oracle
parameters. -/
def create_biometric_zkp_session (user_id biometric_hash : List Nat)
    (salt challenge session_id : List Nat) (now : Nat) (st : Store) : Store :=
  Dict.setD session_id
    { user_id := user_id,
      commitment := (generate_commitment biometric_hash salt).1,
      salt := salt, challenge := challenge,
      created_at := now, expires_at := now + 300 } st

/-- `ZeroKnowledgeProof.verify_biometric_zkp`: a missing session fails; an
expired session is deleted and fails; otherwise the stored commitment,
challenge and salt are checked against the proof, and the session is deleted
only when the proof is accepted.  Returns the result together with the
updated store. -/
def verify_biometric_zkp (st : Store) (session_id proof biometric_hash : List Nat)
    (now : Nat) : Bool × Store :=
  match Dict.lookupD session_id st with
  | none => (false, st)
  | some s =>
      if s.expires_at < now then
        (false, Dict.removeD session_id st)
      else
        let is_valid :=
          verify_proof s.commitment s.challenge proof biometric_hash s.salt
        (is_valid, if is_valid then Dict.removeD session_id st else st)

end ZeroKnowledgeProof

/-- A concrete already-expired `SimpleZKP` session used by the C5 witness. -/
def c5store : SimpleZKP.Store :=
  [([115], { user_id := [117], commitment := [99], challenge := [101],
             created_at := 0, expires_at := 300 })]

/-- A concrete already-expired `ZeroKnowledgeProof` session used by the C5
witness. -/
def c5zstore : ZeroKnowledgeProof.Store :=
  [([115], { user_id := [117], commitment := [99], salt := [0],
             challenge := [101], created_at := 0, expires_at := 300 })]

/-- The concrete biometric hash of the C2 scenario. -/
def c2h : List Nat := Sha256.strBytes "a"

/-- A possible output of `secrets.token_bytes(32)`: thirty-two zero bytes,
used as the session salt. -/
def c2salt : List Nat := List.replicate 32 0

/-- A possible output of `secrets.token_hex(32)`: sixty-four `'0'`
characters, used as the session challenge. -/
def c2chal : List Nat :=
  Sha256.strBytes "0000000000000000000000000000000000000000000000000000000000000000"

/-- The oracle-drawn session id of the C2 scenario. -/
def c2sid : List Nat := Sha256.strBytes "s"

/-- The store right after `create_biometric_zkp_session("u", H)`. -/
def c2st : ZeroKnowledgeProof.Store :=
  ZeroKnowledgeProof.create_biometric_zkp_session (Sha256.strBytes "u") c2h
    c2salt c2chal c2sid 0 []

/-- The honest proof for the C2 session. -/
def c2proof : List Nat := ZeroKnowledgeProof.generate_proof c2h c2chal c2salt

/-- A `SimpleZKP` store with one fresh session, used by the C2 witness. -/
def c2pstore : SimpleZKP.Store :=
  SimpleZKP.create_challenge (Sha256.strBytes "U2") [99] 300 c2sid c2chal 0 []

/-- A proof the prototype verifier accepts: the expected 16-character prefix
itself. -/
def c2pproof : List Nat := (Sha256.sha256hex (c2h ++ c2chal)).take 16

namespace GDPRCompliance

/-- A `GDPRConsent` record (`carl_security_zkp.py`); the `ip_address` and
`consent_text` fields play no role in any queried behaviour and are
omitted. -/
structure GDPRConsent where
  user_id : String
  consent_given : Bool
  purpose : String
  timestamp : Nat
deriving DecidableEq

/-- A `DataAccessLog` entry (`carl_security_zkp.py`). -/
structure DataAccessLog where
  user_id : String
  accessed_by : String
  access_type : String
  data_category : String
  timestamp : Nat
  purpose : String
  legal_basis : String
deriving DecidableEq

/-- The mutable state of a `GDPRCompliance` instance: the `consents` dict
(user id → list of consent records) and the `access_logs` list. -/
structure State where
  consents : List (String × List GDPRConsent)
  access_logs : List DataAccessLog
deriving DecidableEq

/-- `GDPRCompliance.record_consent`: append a consent record to the user's
list, creating the list if the user has none. -/
def record_consent (user_id purpose : String) (consent_given : Bool)
    (now : Nat) (st : State) : State :=
  let c : GDPRConsent :=
    { user_id := user_id, consent_given := consent_given,
      purpose := purpose, timestamp := now }
  let cur := (Dict.lookupD user_id st.consents).getD []
  { st with consents := Dict.setD user_id (cur ++ [c]) st.consents }

/-- `GDPRCompliance.check_consent`: false when the user has no entry,
otherwise the `granted` value of the most recent record for the purpose
(the source scans the user's list in reverse). -/
def check_consent (user_id purpose : String) (st : State) : Bool :=
  match Dict.lookupD user_id st.consents with
  | none => false
  | some l =>
      match l.reverse.find? (fun c => c.purpose == purpose) with
      | some c => c.consent_given
      | none => false

/-- `GDPRCompliance.log_data_access`: append an entry to `access_logs`. -/
def log_data_access (user_id accessed_by access_type data_category
    purpose legal_basis : String) (now : Nat) (st : State) : State :=
  { st with access_logs := st.access_logs ++
      [{ user_id := user_id, accessed_by := accessed_by,
         access_type := access_type, data_category := data_category,
         timestamp := now, purpose := purpose, legal_basis := legal_basis }] }

/-- One exported consent entry of `get_user_data_export`. -/
structure ConsentEntry where
  purpose : String
  consent_given : Bool
  timestamp : Nat
deriving DecidableEq

/-- One exported access-log entry of `get_user_data_export`. -/
structure ExportEntry where
  accessed_by : String
  access_type : String
  data_category : String
  timestamp : Nat
deriving DecidableEq

/-- The projection `get_user_data_export` applies to an access-log entry. -/
def proj (l : DataAccessLog) : ExportEntry :=
  { accessed_by := l.accessed_by, access_type := l.access_type,
    data_category := l.data_category, timestamp := l.timestamp }

/-- The result shape of `get_user_data_export` (the constant
`gdpr_notice` and the export date are omitted). -/
structure Export where
  user_id : String
  consents : List ConsentEntry
  access_logs : List ExportEntry
deriving DecidableEq

/-- `GDPRCompliance.get_user_data_export`: project the user's consents and
the access-log entries whose `user_id` matches. -/
def get_user_data_export (user_id : String) (st : State) : Export :=
  { user_id := user_id,
    consents := ((Dict.lookupD user_id st.consents).getD []).map
      (fun c => { purpose := c.purpose, consent_given := c.consent_given,
                  timestamp := c.timestamp }),
    access_logs := (st.access_logs.filter
        (fun l => l.user_id == user_id)).map proj }

/-- The per-entry anonymization step of `erase_user_data`. -/
def anonym (user_id : String) (l : DataAccessLog) : DataAccessLog :=
  if l.user_id = user_id then { l with user_id := "DELETED_USER" } else l

/-- `GDPRCompliance.erase_user_data`: delete the user's consents and replace
the user id of every access-log entry of that user with `"DELETED_USER"`
(the entries themselves are kept). -/
def erase_user_data (user_id : String) (st : State) : State :=
  { consents := Dict.removeD user_id st.consents,
    access_logs := st.access_logs.map (anonym user_id) }

end GDPRCompliance

/-- The single access-log entry of the concrete C6 ledger. -/
def c6log : GDPRCompliance.DataAccessLog :=
  { user_id := "alice", accessed_by := "CARL_AUTH_SYSTEM",
    access_type := "READ", data_category := "biometric_template",
    timestamp := 1, purpose := "authentication",
    legal_basis := "Contract (GDPR Art. 6(1)(b))" }

/-- A concrete ledger holding one consent and one access-log entry for
`"alice"`. -/
def c6st : GDPRCompliance.State :=
  { consents := [("alice",
      [{ user_id := "alice", consent_given := true,
         purpose := "biometric_authentication", timestamp := 0 }])],
    access_logs := [c6log] }

/-- The `"alice"` access-log entry of the concrete C9 ledger. -/
def c9logA : GDPRCompliance.DataAccessLog :=
  { user_id := "alice", accessed_by := "sys", access_type := "READ",
    data_category := "bio", timestamp := 1, purpose := "auth",
    legal_basis := "contract" }

/-- The `"bob"` access-log entry of the concrete C9 ledger. -/
def c9logB : GDPRCompliance.DataAccessLog :=
  { user_id := "bob", accessed_by := "sys", access_type := "READ",
    data_category := "bio", timestamp := 2, purpose := "auth",
    legal_basis := "contract" }

/-- A concrete ledger holding one access-log entry each for `"alice"` and
`"bob"`. -/
def c9st : GDPRCompliance.State :=
  { consents := [], access_logs := [c9logA, c9logB] }

namespace CarlSecurityManager

/-- A biometric template as produced by
`BiometricProtection.create_template`: the digest of `salt || data` and the
salt (the `algorithm`, `created_at` and `version` fields are constants in
the source and are omitted). -/
structure Template where
  digest : List Nat
  salt : List Nat
deriving DecidableEq

/-- `BiometricProtection.hash_biometric`: `H(salt || data)`, with the salt an
explicit parameter when the source draws it freshly. -/
def hash_biometric (biometric_data salt : List Nat) : List Nat × List Nat :=
  (Sha256.sha256hex (salt ++ biometric_data), salt)

/-- `BiometricProtection.create_template`. -/
def create_template (biometric_data salt : List Nat) : Template :=
  { digest := (hash_biometric biometric_data salt).1, salt := salt }

/-- One step of `secure_user_registration`; the trace below lists the
source's statements in program order (the vault encryption of each template
is recorded as an event — its ciphertext plays no role in this claim). -/
inductive RegEvent
  | consentRecorded (user purpose : String) (granted : Bool)
  | hashedTemplate (modality : String)
  | encryptedTemplate (modality : String)
deriving DecidableEq

/-- The successful result of `secure_user_registration`. -/
structure RegResult where
  user_id : String
  voice_template : Template
  face_template : Template
deriving DecidableEq

/-- The statement order of the consenting branch of
`secure_user_registration`: record consent, hash voice, hash face, encrypt
voice, encrypt face. -/
def regEvents (user_id : String) : List RegEvent :=
  [.consentRecorded user_id "biometric_authentication" true,
   .hashedTemplate "voice", .hashedTemplate "face",
   .encryptedTemplate "voice", .encryptedTemplate "face"]

/-- `CarlSecurityManager.secure_user_registration`: without consent the call
raises (`Except.error`) and produces nothing; with consent it records the
consent in the GDPR ledger and then builds both biometric templates,
returning the updated ledger, the result and the event trace. -/
def secure_user_registration (user_id : String)
    (voice_data face_data : List Nat) (consent_given : Bool)
    (voice_salt face_salt : List Nat) (now : Nat)
    (gdpr : GDPRCompliance.State) :
    Except String (GDPRCompliance.State × RegResult × List RegEvent) :=
  if consent_given then
    .ok (GDPRCompliance.record_consent user_id "biometric_authentication"
           true now gdpr,
         { user_id := user_id,
           voice_template := create_template voice_data voice_salt,
           face_template := create_template face_data face_salt },
         regEvents user_id)
  else
    .error "GDPR: User consent required!"

end CarlSecurityManager

namespace CARLCognitiveEngine

/-- A `UserProfile` of `carl_ai_core.py` (the per-modality `content_rights`
map, derivable from which modalities are present, is omitted). -/
structure UserProfile where
  user_id : String
  voice_signature : Option (List Nat)
  face_template : Option (List Nat)
  consent_given : Bool
deriving DecidableEq

/-- Python truthiness of an optional byte string: `None` and `b""` are both
falsy. -/
def truthy (b : Option (List Nat)) : Option (List Nat) :=
  match b with
  | none => none
  | some d => if d = [] then none else some d

/-- `CARLCognitiveEngine.register_user_biometrics`: without consent the call
raises (`Except.error`) and produces no profile; with consent each supplied
modality is stored as its SHA-256 hex digest. -/
def register_user_biometrics (user_id : String)
    (voice_sample face_image : Option (List Nat)) (consent : Bool) :
    Except String UserProfile :=
  if consent then
    .ok { user_id := user_id,
          voice_signature := (truthy voice_sample).map Sha256.sha256hex,
          face_template := (truthy face_image).map Sha256.sha256hex,
          consent_given := consent }
  else
    .error "GDPR: Felhasználói hozzájárulás szükséges!"

end CARLCognitiveEngine

namespace AES256Encryption

/-- Modelled from the spec: the AES-256-GCM cipher of `AES256Encryption`
lives in the external `cryptography` library, so the vault is embedded at
the level the spec fixes (§4.2, §8): authenticated encryption whose
decryption is all-or-nothing.  GCM's structure is kept: the ciphertext is
the plaintext XORed with a keystream determined by the key and the nonce
(CTR mode), and the tag is a polynomial MAC — the GHASH sum
`Σ βᵢ · Hᵏ` over the associated data, the ciphertext and a length block,
offset by a key/nonce pad — over an abstract field with hash subkey `H`.
The keystream `ksF`, the pad `ek0F`, the field and the block embedding `β`
abstract the AES block cipher itself.  `xorKs` XORs a byte list against the
keystream starting at byte index `i`. -/
def xorKs (ks : Nat → Nat) : List Nat → Nat → List Nat
  | [], _ => []
  | b :: t, i => (b ^^^ ks i) :: xorKs ks t (i + 1)

/-- Modelled from the spec: an `EncryptedBlob` — ciphertext, nonce, tag and
optional associated data (the empty list plays Python's falsy `None`/`b""`,
matching the source's `if associated_data:` checks). -/
structure Blob (F : Type) where
  ciphertext : List Nat
  iv : List Nat
  tag : F
  associated_data : List Nat

/-- Modelled from the spec: the authentication tag — a Horner evaluation of
the associated data, the ciphertext and a block binding both lengths, at the
hash subkey `H`, offset by the pad `ek0`. -/
def polyTag {F : Type} [Field F] (β : Nat → F) (H ek0 : F)
    (aad ct : List Nat) : F :=
  ((aad ++ ct ++ [aad.length * 18446744073709551616 + ct.length]).foldl
    (fun acc b => acc * H + β b) 0) + ek0

/-- Modelled from the spec: `AES256Encryption.encrypt` — draw a nonce
(an explicit parameter here), XOR the plaintext against the keystream and
authenticate associated data and ciphertext. -/
def encrypt {F : Type} [Field F] (β : Nat → F) (H : F)
    (ek0F : List Nat → F) (ksF : List Nat → Nat → Nat)
    (plaintext aad iv : List Nat) : Blob F :=
  let ct := xorKs (ksF iv) plaintext 0
  { ciphertext := ct, iv := iv,
    tag := polyTag β H (ek0F iv) aad ct,
    associated_data := aad }

/-- Modelled from the spec: `AES256Encryption.decrypt` — recompute the tag
from the blob's nonce, associated data and ciphertext; on mismatch fail
(`none`) with no plaintext released, otherwise XOR the ciphertext back. -/
def decrypt {F : Type} [Field F] [DecidableEq F] (β : Nat → F) (H : F)
    (ek0F : List Nat → F) (ksF : List Nat → Nat → Nat) (blob : Blob F) :
    Option (List Nat) :=
  if polyTag β H (ek0F blob.iv) blob.associated_data blob.ciphertext =
      blob.tag then
    some (xorKs (ksF blob.iv) blob.ciphertext 0)
  else
    none

/-- Flip bit `j` of ciphertext byte `i` of a blob. -/
def tamperCt {F : Type} (blob : Blob F) (i j : Nat) : Blob F :=
  { blob with ciphertext :=
      blob.ciphertext.set i ((blob.ciphertext.getD i 0) ^^^ (1 <<< j)) }

/-- Replace the tag of a blob. -/
def tamperTag {F : Type} (blob : Blob F) (t : F) : Blob F :=
  { blob with tag := t }

end AES256Encryption

namespace Sha256

/-- Sanity: the FIPS 180-4 test vector for `sha256("abc")`. -/
theorem sha256_abc_vector :
    sha256hex (strBytes "abc") =
      strBytes "ba7816bf8f01cfea414140de5dae2223b00361a396177a9cb410ff61f20015ad" := by
  decide

end Sha256

namespace Dict

theorem lookupD_removeD_self {κ α : Type} [DecidableEq κ] (k : κ)
    (l : List (κ × α)) : lookupD k (removeD k l) = none := by
  induction l with
  | nil => rfl
  | cons p rest ih =>
      by_cases h : p.1 = k
      · simpa [removeD, List.filter, h] using ih
      · simpa [removeD, List.filter, h, lookupD] using ih

theorem lookupD_removeD_ne {κ α : Type} [DecidableEq κ] {k k' : κ}
    (h : k ≠ k') (l : List (κ × α)) :
    lookupD k (removeD k' l) = lookupD k l := by
  induction l with
  | nil => rfl
  | cons p rest ih =>
      by_cases hp : p.1 = k'
      · have hpk : p.1 ≠ k := fun hk => h (hk.symm.trans hp)
        have hstep : removeD k' (p :: rest) = removeD k' rest := by
          simp [removeD, List.filter_cons, hp]
        rw [hstep, ih]
        simp [lookupD, hpk]
      · have hstep : removeD k' (p :: rest) = p :: removeD k' rest := by
          simp [removeD, List.filter_cons, hp]
        rw [hstep]
        by_cases hk : p.1 = k
        · simp [lookupD, hk]
        · simp [lookupD, hk, ih]

end Dict

set_option maxRecDepth 100000 in
/-- Claim C1: the spec demands that the honest possession handshake —
`open_session("U2", commitment_for_K, 300)` followed by
`verify_proof(session_id, generate_proof(K, challenge, randomness), K)` —
returns `true`.  Evaluating the code at the concrete failing input shows it
returns `false` (and leaves the session in place): the verifier accepts only
proofs starting with the first 16 hex characters of `H(secret || challenge)`,
while the honest prover sends `H(secret || challenge || randomness)`, so the
honest run is rejected.  This contradicts the source's own demo
(`demo_zkp_flow` expects `✅ AUTHENTICATION SUCCESSFUL`) and its docstring
protocol (`Verifier checks: s == H(stored_commitment || e)`): a code bug. -/
theorem claim_C1_code_divergence :
    SimpleZKP.verify_proof c1store c1sid
      (SimpleZKP.generate_proof c1secret c1chal c1rand) c1secret 0 =
      (false, c1store) := by
  decide

namespace ZeroKnowledgeProof

theorem verify_biometric_zkp_absent (st : Store) (sid proof h : List Nat)
    (now : Nat) (hab : Dict.lookupD sid st = none) :
    verify_biometric_zkp st sid proof h now = (false, st) := by
  simp [verify_biometric_zkp, hab]

end ZeroKnowledgeProof

namespace SimpleZKP

theorem verify_proof_absent (st : Store) (sid proof secret : List Nat)
    (now : Nat) (hab : Dict.lookupD sid st = none) :
    verify_proof st sid proof secret now = (false, st) := by
  simp [verify_proof, hab]

end SimpleZKP

/-- Claim C10: committing and opening are inverse — for every secret and
salt, `verify_commitment(secret, salt, c)` returns true on the commitment
`c` produced by `generate_commitment(secret, salt)` and false on every other
commitment value. -/
theorem claim_C10_commitment_sound :
    ∀ (secret salt c' : List Nat),
      ZeroKnowledgeProof.verify_commitment secret salt
        (ZeroKnowledgeProof.generate_commitment secret salt).1 = true ∧
      (c' ≠ (ZeroKnowledgeProof.generate_commitment secret salt).1 →
        ZeroKnowledgeProof.verify_commitment secret salt c' = false) := by
  intro secret salt c'
  constructor
  · simp [ZeroKnowledgeProof.verify_commitment]
  · intro hne
    simp only [ZeroKnowledgeProof.verify_commitment, beq_eq_false_iff_ne,
      ne_eq]
    exact fun h => hne h.symm

/-- Witness for C10 at the secret `"a"`, the one-byte salt `[0]` and the
foreign commitment value `[]`. -/
theorem claim_C10_witness :
    ZeroKnowledgeProof.verify_commitment (Sha256.strBytes "a") [0]
      (ZeroKnowledgeProof.generate_commitment (Sha256.strBytes "a") [0]).1
        = true ∧
    ZeroKnowledgeProof.verify_commitment (Sha256.strBytes "a") [0] [] = false :=
  ⟨(claim_C10_commitment_sound (Sha256.strBytes "a") [0] []).1,
   (claim_C10_commitment_sound (Sha256.strBytes "a") [0] []).2 (by decide)⟩

/-- Claim C5: verifying an expired session — in both `SimpleZKP.verify_proof`
and `ZeroKnowledgeProof.verify_biometric_zkp` — returns false regardless of
the submitted proof, and the expired session is removed from the store during
the call. -/
theorem claim_C5_expired_sessions :
    (∀ (st : SimpleZKP.Store) (sid proof secret : List Nat) (now : Nat)
        (s : SimpleZKP.Session),
        Dict.lookupD sid st = some s → s.expires_at < now →
        SimpleZKP.verify_proof st sid proof secret now =
          (false, Dict.removeD sid st) ∧
        Dict.lookupD sid (Dict.removeD sid st) =
          (none : Option SimpleZKP.Session))
    ∧ (∀ (st : ZeroKnowledgeProof.Store) (sid proof bh : List Nat) (now : Nat)
        (s : ZeroKnowledgeProof.Session),
        Dict.lookupD sid st = some s → s.expires_at < now →
        ZeroKnowledgeProof.verify_biometric_zkp st sid proof bh now =
          (false, Dict.removeD sid st) ∧
        Dict.lookupD sid (Dict.removeD sid st) =
          (none : Option ZeroKnowledgeProof.Session)) := by
  constructor
  · intro st sid proof secret now s hl hexp
    refine ⟨?_, Dict.lookupD_removeD_self sid st⟩
    simp [SimpleZKP.verify_proof, hl, hexp]
  · intro st sid proof bh now s hl hexp
    refine ⟨?_, Dict.lookupD_removeD_self sid st⟩
    simp [ZeroKnowledgeProof.verify_biometric_zkp, hl, hexp]

/-- Witness for C5 at time 301 on sessions expiring at 300. -/
theorem claim_C5_witness :
    (SimpleZKP.verify_proof c5store [115] [1] [2] 301 =
        (false, Dict.removeD [115] c5store) ∧
      Dict.lookupD [115] (Dict.removeD [115] c5store) =
        (none : Option SimpleZKP.Session))
    ∧ (ZeroKnowledgeProof.verify_biometric_zkp c5zstore [115] [1] [2] 301 =
        (false, Dict.removeD [115] c5zstore) ∧
      Dict.lookupD [115] (Dict.removeD [115] c5zstore) =
        (none : Option ZeroKnowledgeProof.Session)) :=
  ⟨claim_C5_expired_sessions.1 c5store [115] [1] [2] 301
      { user_id := [117], commitment := [99], challenge := [101],
        created_at := 0, expires_at := 300 } (by decide) (by decide),
   claim_C5_expired_sessions.2 c5zstore [115] [1] [2] 301
      { user_id := [117], commitment := [99], salt := [0],
        challenge := [101], created_at := 0, expires_at := 300 }
      (by decide) (by decide)⟩

set_option maxRecDepth 1000000 in
/-- Counterexample to claim C2 as stated: the first verify call on a session
is claimed to remove the session — accepted or rejected — making every later
verify call on the same id return false.  In the code a rejected, unexpired
attempt leaves the session in the store: after a first call with a wrong
proof (returning false and an unchanged store), a later call with the
correct proof returns true. -/
theorem claim_C2_counterexample :
    ZeroKnowledgeProof.verify_biometric_zkp c2st c2sid [120] c2h 0 =
      (false, c2st) ∧
    (ZeroKnowledgeProof.verify_biometric_zkp c2st c2sid c2proof c2h 0).1 =
      true := by
  decide

/-- Sessions of `ZeroKnowledgeProof` are consumed exactly on acceptance or
expiry: helper for the amended claim C2. -/
theorem zkp_consume_once :
    ∀ (st : ZeroKnowledgeProof.Store) (sid proof bh : List Nat) (now : Nat),
      ((ZeroKnowledgeProof.verify_biometric_zkp st sid proof bh now).1 = true →
        Dict.lookupD sid
          (ZeroKnowledgeProof.verify_biometric_zkp st sid proof bh now).2 =
          none ∧
        ∀ (p2 h2 : List Nat) (n2 : Nat),
          ZeroKnowledgeProof.verify_biometric_zkp
            (ZeroKnowledgeProof.verify_biometric_zkp st sid proof bh now).2
            sid p2 h2 n2 =
          (false,
            (ZeroKnowledgeProof.verify_biometric_zkp st sid proof bh now).2))
      ∧ (∀ s : ZeroKnowledgeProof.Session,
          Dict.lookupD sid st = some s → s.expires_at < now →
          (ZeroKnowledgeProof.verify_biometric_zkp st sid proof bh now).1 =
            false ∧
          Dict.lookupD sid
            (ZeroKnowledgeProof.verify_biometric_zkp st sid proof bh now).2 =
            none ∧
          ∀ (p2 h2 : List Nat) (n2 : Nat),
            ZeroKnowledgeProof.verify_biometric_zkp
              (ZeroKnowledgeProof.verify_biometric_zkp st sid proof bh now).2
              sid p2 h2 n2 =
            (false,
              (ZeroKnowledgeProof.verify_biometric_zkp st sid proof bh now).2)) := by
  intro st sid proof bh now
  cases hl : Dict.lookupD sid st with
  | none =>
      constructor
      · intro htrue
        rw [ZeroKnowledgeProof.verify_biometric_zkp_absent st sid proof bh now hl] at htrue
        cases htrue
      · intro s hs
        simp at hs
  | some s =>
      by_cases hexp : s.expires_at < now
      · have hres :
            ZeroKnowledgeProof.verify_biometric_zkp st sid proof bh now =
              (false, Dict.removeD sid st) := by
          simp [ZeroKnowledgeProof.verify_biometric_zkp, hl, hexp]
        constructor
        · intro htrue
          rw [hres] at htrue
          cases htrue
        · intro s' hs' hexp'
          rw [hres]
          refine ⟨rfl, Dict.lookupD_removeD_self sid st, ?_⟩
          intro p2 h2 n2
          exact ZeroKnowledgeProof.verify_biometric_zkp_absent _ sid p2 h2 n2
            (Dict.lookupD_removeD_self sid st)
      · by_cases hv :
            ZeroKnowledgeProof.verify_proof s.commitment s.challenge proof
              bh s.salt = true
        · have hres :
              ZeroKnowledgeProof.verify_biometric_zkp st sid proof bh now =
                (true, Dict.removeD sid st) := by
            simp [ZeroKnowledgeProof.verify_biometric_zkp, hl, hexp, hv]
          constructor
          · intro _
            rw [hres]
            refine ⟨Dict.lookupD_removeD_self sid st, ?_⟩
            intro p2 h2 n2
            exact ZeroKnowledgeProof.verify_biometric_zkp_absent _ sid p2 h2 n2
              (Dict.lookupD_removeD_self sid st)
          · intro s' hs' hexp'
            have hss : s = s' := by injection hs'
            subst hss
            exact absurd hexp' hexp
        · have hres :
              ZeroKnowledgeProof.verify_biometric_zkp st sid proof bh now =
                (false, st) := by
            simp [ZeroKnowledgeProof.verify_biometric_zkp, hl, hexp,
              Bool.eq_false_iff.mpr hv]
          constructor
          · intro htrue
            rw [hres] at htrue
            cases htrue
          · intro s' hs' hexp'
            have hss : s = s' := by injection hs'
            subst hss
            exact absurd hexp' hexp

/-- Sessions of `SimpleZKP` are consumed exactly on acceptance or expiry:
helper for the amended claim C2. -/
theorem simple_zkp_consume_once :
    ∀ (st : SimpleZKP.Store) (sid proof secret : List Nat) (now : Nat),
      ((SimpleZKP.verify_proof st sid proof secret now).1 = true →
        Dict.lookupD sid (SimpleZKP.verify_proof st sid proof secret now).2 =
          none ∧
        ∀ (p2 s2 : List Nat) (n2 : Nat),
          SimpleZKP.verify_proof
            (SimpleZKP.verify_proof st sid proof secret now).2 sid p2 s2 n2 =
          (false, (SimpleZKP.verify_proof st sid proof secret now).2))
      ∧ (∀ s : SimpleZKP.Session,
          Dict.lookupD sid st = some s → s.expires_at < now →
          (SimpleZKP.verify_proof st sid proof secret now).1 = false ∧
          Dict.lookupD sid (SimpleZKP.verify_proof st sid proof secret now).2 =
            none ∧
          ∀ (p2 s2 : List Nat) (n2 : Nat),
            SimpleZKP.verify_proof
              (SimpleZKP.verify_proof st sid proof secret now).2 sid p2 s2 n2 =
            (false, (SimpleZKP.verify_proof st sid proof secret now).2)) := by
  intro st sid proof secret now
  cases hl : Dict.lookupD sid st with
  | none =>
      constructor
      · intro htrue
        rw [SimpleZKP.verify_proof_absent st sid proof secret now hl] at htrue
        cases htrue
      · intro s hs
        simp at hs
  | some s =>
      by_cases hexp : s.expires_at < now
      · have hres :
            SimpleZKP.verify_proof st sid proof secret now =
              (false, Dict.removeD sid st) := by
          simp [SimpleZKP.verify_proof, hl, hexp]
        constructor
        · intro htrue
          rw [hres] at htrue
          cases htrue
        · intro s' hs' hexp'
          rw [hres]
          refine ⟨rfl, Dict.lookupD_removeD_self sid st, ?_⟩
          intro p2 s2 n2
          exact SimpleZKP.verify_proof_absent _ sid p2 s2 n2
            (Dict.lookupD_removeD_self sid st)
      · by_cases hv :
            ((Sha256.sha256hex (secret ++ s.challenge)).take 16).isPrefixOf
              proof = true
        · have hres :
              SimpleZKP.verify_proof st sid proof secret now =
                (true, Dict.removeD sid st) := by
            simp [SimpleZKP.verify_proof, hl, hexp, hv]
          constructor
          · intro _
            rw [hres]
            refine ⟨Dict.lookupD_removeD_self sid st, ?_⟩
            intro p2 s2 n2
            exact SimpleZKP.verify_proof_absent _ sid p2 s2 n2
              (Dict.lookupD_removeD_self sid st)
          · intro s' hs' hexp'
            have hss : s = s' := by injection hs'
            subst hss
            exact absurd hexp' hexp
        · have hres :
              SimpleZKP.verify_proof st sid proof secret now =
                (false, st) := by
            simp [SimpleZKP.verify_proof, hl, hexp,
              Bool.eq_false_iff.mpr hv]
          constructor
          · intro htrue
            rw [hres] at htrue
            cases htrue
          · intro s' hs' hexp'
            have hss : s = s' := by injection hs'
            subst hss
            exact absurd hexp' hexp

/-- Claim C2 (amended): in both session stores a session is consumed by the
first verify call that accepts the proof, and by any call that finds it
expired; in those cases the session id is gone from the store and every
later verify call on it returns false with the store unchanged.  A rejected,
unexpired attempt does not consume the session (see the counterexample). -/
theorem claim_C2_amended :
    (∀ (st : ZeroKnowledgeProof.Store) (sid proof bh : List Nat) (now : Nat),
      ((ZeroKnowledgeProof.verify_biometric_zkp st sid proof bh now).1 = true →
        Dict.lookupD sid
          (ZeroKnowledgeProof.verify_biometric_zkp st sid proof bh now).2 =
          none ∧
        ∀ (p2 h2 : List Nat) (n2 : Nat),
          ZeroKnowledgeProof.verify_biometric_zkp
            (ZeroKnowledgeProof.verify_biometric_zkp st sid proof bh now).2
            sid p2 h2 n2 =
          (false,
            (ZeroKnowledgeProof.verify_biometric_zkp st sid proof bh now).2))
      ∧ (∀ s : ZeroKnowledgeProof.Session,
          Dict.lookupD sid st = some s → s.expires_at < now →
          (ZeroKnowledgeProof.verify_biometric_zkp st sid proof bh now).1 =
            false ∧
          Dict.lookupD sid
            (ZeroKnowledgeProof.verify_biometric_zkp st sid proof bh now).2 =
            none ∧
          ∀ (p2 h2 : List Nat) (n2 : Nat),
            ZeroKnowledgeProof.verify_biometric_zkp
              (ZeroKnowledgeProof.verify_biometric_zkp st sid proof bh now).2
              sid p2 h2 n2 =
            (false,
              (ZeroKnowledgeProof.verify_biometric_zkp st sid proof bh now).2)))
    ∧ (∀ (st : SimpleZKP.Store) (sid proof secret : List Nat) (now : Nat),
      ((SimpleZKP.verify_proof st sid proof secret now).1 = true →
        Dict.lookupD sid (SimpleZKP.verify_proof st sid proof secret now).2 =
          none ∧
        ∀ (p2 s2 : List Nat) (n2 : Nat),
          SimpleZKP.verify_proof
            (SimpleZKP.verify_proof st sid proof secret now).2 sid p2 s2 n2 =
          (false, (SimpleZKP.verify_proof st sid proof secret now).2))
      ∧ (∀ s : SimpleZKP.Session,
          Dict.lookupD sid st = some s → s.expires_at < now →
          (SimpleZKP.verify_proof st sid proof secret now).1 = false ∧
          Dict.lookupD sid (SimpleZKP.verify_proof st sid proof secret now).2 =
            none ∧
          ∀ (p2 s2 : List Nat) (n2 : Nat),
            SimpleZKP.verify_proof
              (SimpleZKP.verify_proof st sid proof secret now).2 sid p2 s2 n2 =
            (false, (SimpleZKP.verify_proof st sid proof secret now).2))) :=
  ⟨zkp_consume_once, simple_zkp_consume_once⟩

set_option maxRecDepth 1000000 in
/-- Witness for the amended C2 at the honest run of the C2 scenario: the
accepting verify call consumes the session, and replaying the same call on
the resulting store fails. -/
theorem claim_C2_witness :
    (Dict.lookupD c2sid
      (ZeroKnowledgeProof.verify_biometric_zkp c2st c2sid c2proof c2h 0).2 =
      none ∧
    ZeroKnowledgeProof.verify_biometric_zkp
      (ZeroKnowledgeProof.verify_biometric_zkp c2st c2sid c2proof c2h 0).2
      c2sid c2proof c2h 0 =
    (false,
      (ZeroKnowledgeProof.verify_biometric_zkp c2st c2sid c2proof c2h 0).2)) ∧
    (Dict.lookupD c2sid
      (SimpleZKP.verify_proof c2pstore c2sid c2pproof c2h 0).2 = none ∧
    SimpleZKP.verify_proof
      (SimpleZKP.verify_proof c2pstore c2sid c2pproof c2h 0).2
      c2sid c2pproof c2h 0 =
    (false, (SimpleZKP.verify_proof c2pstore c2sid c2pproof c2h 0).2)) :=
  let h := (claim_C2_amended.1 c2st c2sid c2proof c2h 0).1 (by decide)
  let h2 := (claim_C2_amended.2 c2pstore c2sid c2pproof c2h 0).1 (by decide)
  ⟨⟨h.1, h.2 c2proof c2h 0⟩, ⟨h2.1, h2.2 c2pproof c2h 0⟩⟩

namespace GDPRCompliance

theorem anonym_user_ne (u : String) (hu : u ≠ "DELETED_USER")
    (l : DataAccessLog) : (anonym u l).user_id ≠ u := by
  unfold anonym
  by_cases h : l.user_id = u
  · rw [if_pos h]
    exact fun he => hu he.symm
  · rw [if_neg h]
    exact h

theorem filter_map_anonym (u : String) (hu : u ≠ "DELETED_USER") :
    ∀ logs : List DataAccessLog,
      (logs.map (anonym u)).filter (fun l => l.user_id == u) = [] := by
  intro logs
  induction logs with
  | nil => rfl
  | cons l rest ih =>
      have h := anonym_user_ne u hu l
      simp only [List.map_cons, List.filter_cons]
      rw [if_neg (by simpa using h)]
      exact ih

end GDPRCompliance

/-- Claim C7: `check_consent(user, purpose)` returns the `granted` value of
the most recently appended record for the (user, purpose) pair, ignoring all
older records, and false when no record exists.  Stated as three laws over
`record_consent`: a fresh record for the pair wins; a record for any other
pair leaves the answer unchanged; the empty ledger answers false. -/
theorem claim_C7_latest_consent :
    (∀ (st : GDPRCompliance.State) (u p : String) (g : Bool) (now : Nat),
      GDPRCompliance.check_consent u p
        (GDPRCompliance.record_consent u p g now st) = g)
    ∧ (∀ (st : GDPRCompliance.State) (u p u' p' : String) (g : Bool)
        (now : Nat), ¬(u' = u ∧ p' = p) →
      GDPRCompliance.check_consent u p
        (GDPRCompliance.record_consent u' p' g now st) =
      GDPRCompliance.check_consent u p st)
    ∧ (∀ u p : String,
      GDPRCompliance.check_consent u p
        { consents := [], access_logs := [] } = false) := by
  refine ⟨?_, ?_, ?_⟩
  · intro st u p g now
    simp [GDPRCompliance.record_consent, GDPRCompliance.check_consent,
      Dict.setD, Dict.lookupD, List.find?]
  · intro st u p u' p' g now hne
    by_cases hu : u' = u
    · subst hu
      have hp : p' ≠ p := fun hp => hne ⟨rfl, hp⟩
      have hbeq : (p' == p) = false := beq_eq_false_iff_ne.mpr hp
      cases ho : Dict.lookupD u' st.consents with
      | none =>
          simp [GDPRCompliance.record_consent, GDPRCompliance.check_consent,
            Dict.setD, Dict.lookupD, ho, List.find?, hbeq]
      | some l =>
          simp [GDPRCompliance.record_consent, GDPRCompliance.check_consent,
            Dict.setD, Dict.lookupD, ho, List.find?, hbeq]
    · have hlk : ∀ v, Dict.lookupD u (Dict.setD u' v st.consents) =
          Dict.lookupD u st.consents := by
        intro v
        have h1 : Dict.lookupD u ((u', v) :: Dict.removeD u' st.consents) =
            Dict.lookupD u (Dict.removeD u' st.consents) := by
          simp [Dict.lookupD, hu]
        rw [Dict.setD, h1, Dict.lookupD_removeD_ne (fun h => hu h.symm)]
      simp [GDPRCompliance.record_consent, GDPRCompliance.check_consent, hlk]
  · intro u p
    rfl

/-- Witness for C7: the laws applied on a small concrete ledger — recording
consent for the pair returns it, and recording for a different purpose
leaves the other pair's answer unchanged. -/
theorem claim_C7_witness :
    GDPRCompliance.check_consent "alice" "marketing"
      (GDPRCompliance.record_consent "alice" "marketing" true 3
        { consents := [], access_logs := [] }) = true ∧
    GDPRCompliance.check_consent "alice" "marketing"
      (GDPRCompliance.record_consent "alice" "authentication" false 4
        { consents := [], access_logs := [] }) =
    GDPRCompliance.check_consent "alice" "marketing"
      { consents := [], access_logs := [] } :=
  ⟨claim_C7_latest_consent.1 { consents := [], access_logs := [] }
      "alice" "marketing" true 3,
   claim_C7_latest_consent.2.1 { consents := [], access_logs := [] }
      "alice" "marketing" "alice" "authentication" false 4 (by decide)⟩

/-- Counterexample to claim C6 as stated: the claim says that after
`erase_user_data(u)` the export of `u` returns the user's former access-log
entries in anonymized form.  On a ledger where `"alice"` owned exactly one
access-log entry, the export after erasure contains zero access-log entries
(the anonymized entry now carries the id `"DELETED_USER"` and is no longer
selected for `"alice"`), so the export does not return the former entry in
any form. -/
theorem claim_C6_counterexample :
    (GDPRCompliance.get_user_data_export "alice"
      (GDPRCompliance.erase_user_data "alice" c6st)).access_logs = [] ∧
    (GDPRCompliance.get_user_data_export "alice" c6st).access_logs.length
      = 1 := by
  decide

/-- Claim C6 (amended): after `erase_user_data(u)`, exporting `u` returns an
empty consents list and an *empty* access-log list — the user's former
entries remain in the ledger anonymized under `"DELETED_USER"` — and the
total number of access-log entries held by the ledger is unchanged. -/
theorem claim_C6_amended :
    ∀ (st : GDPRCompliance.State) (u : String), u ≠ "DELETED_USER" →
      (GDPRCompliance.get_user_data_export u
        (GDPRCompliance.erase_user_data u st)).consents = [] ∧
      (GDPRCompliance.get_user_data_export u
        (GDPRCompliance.erase_user_data u st)).access_logs = [] ∧
      (GDPRCompliance.erase_user_data u st).access_logs.length =
        st.access_logs.length := by
  intro st u hu
  refine ⟨?_, ?_, ?_⟩
  · simp [GDPRCompliance.get_user_data_export,
      GDPRCompliance.erase_user_data, Dict.lookupD_removeD_self]
  · simp [GDPRCompliance.get_user_data_export,
      GDPRCompliance.erase_user_data,
      GDPRCompliance.filter_map_anonym u hu]
  · simp [GDPRCompliance.erase_user_data]

/-- Witness for the amended C6 on the concrete `"alice"` ledger. -/
theorem claim_C6_witness :
    (GDPRCompliance.get_user_data_export "alice"
      (GDPRCompliance.erase_user_data "alice" c6st)).consents = [] ∧
    (GDPRCompliance.get_user_data_export "alice"
      (GDPRCompliance.erase_user_data "alice" c6st)).access_logs = [] ∧
    (GDPRCompliance.erase_user_data "alice" c6st).access_logs.length =
      c6st.access_logs.length :=
  claim_C6_amended c6st "alice" (by decide)

namespace GDPRCompliance

theorem anonym_hit {u : String} {l : DataAccessLog} (h : l.user_id = u) :
    (anonym u l).user_id = "DELETED_USER" := by
  simp [anonym, h]

theorem anonym_keep {u : String} {l : DataAccessLog} (h : l.user_id ≠ u) :
    anonym u l = l := by
  simp [anonym, h]

theorem proj_anonym (u : String) (l : DataAccessLog) :
    proj (anonym u l) = proj l := by
  unfold anonym
  by_cases h : l.user_id = u
  · rw [if_pos h]
    rfl
  · rw [if_neg h]

/-- After anonymizing for `u` and then for `v` (both different from the
placeholder), exactly the entries that originally belonged to `u` or `v`
carry `"DELETED_USER"`, so exporting `"DELETED_USER"` selects them all. -/
theorem export_deleted_aux (u v : String) (_hu : u ≠ "DELETED_USER")
    (hv : v ≠ "DELETED_USER") :
    ∀ logs : List DataAccessLog,
      (∀ l ∈ logs, l.user_id ≠ "DELETED_USER") →
      (((logs.map (anonym u)).map (anonym v)).filter
        (fun l => l.user_id == "DELETED_USER")).map proj =
      (logs.filter (fun l => l.user_id == u || l.user_id == v)).map proj := by
  intro logs
  induction logs with
  | nil => intro _; rfl
  | cons l rest ih =>
      intro hclean
      have hl : l.user_id ≠ "DELETED_USER" := hclean l (List.mem_cons_self l rest)
      have hrest : ∀ x ∈ rest, x.user_id ≠ "DELETED_USER" :=
        fun x hx => hclean x (List.mem_cons_of_mem l hx)
      simp only [List.map_cons, List.filter_cons]
      by_cases hu1 : l.user_id = u
      · have h1 : (anonym u l).user_id = "DELETED_USER" := anonym_hit hu1
        have h2 : anonym v (anonym u l) = anonym u l :=
          anonym_keep (fun he => hv (he.symm.trans h1))
        rw [h2]
        rw [if_pos (by simpa using h1), if_pos (by simp [hu1])]
        simp only [List.map_cons, proj_anonym]
        rw [ih hrest]
      · have h2 : anonym u l = l := anonym_keep hu1
        rw [h2]
        by_cases hv1 : l.user_id = v
        · have h3 : (anonym v l).user_id = "DELETED_USER" := anonym_hit hv1
          rw [if_pos (by simpa using h3), if_pos (by simp [hv1])]
          simp only [List.map_cons, proj_anonym]
          rw [ih hrest]
        · have h3 : anonym v l = l := anonym_keep hv1
          rw [h3]
          rw [if_neg (by simpa using hl), if_neg (by simp [hu1, hv1])]
          exact ih hrest

end GDPRCompliance

/-- Claim C9: after `erase_user_data(u)` every former access-log entry of
`u` carries the placeholder id `"DELETED_USER"`; the export of `u` then
selects zero access-log entries; entries of two erased users become
indistinguishable by user id; and exporting `"DELETED_USER"` returns the
anonymized entries of every erased user combined (on a ledger that held no
placeholder entries beforehand). -/
theorem claim_C9_anonymization :
    ∀ (st : GDPRCompliance.State) (u v : String),
      u ≠ "DELETED_USER" → v ≠ "DELETED_USER" →
      (∀ (i : Nat) (l0 : GDPRCompliance.DataAccessLog),
        st.access_logs[i]? = some l0 → l0.user_id = u →
        ((GDPRCompliance.erase_user_data u st).access_logs[i]?).map
          GDPRCompliance.DataAccessLog.user_id = some "DELETED_USER")
      ∧ (GDPRCompliance.get_user_data_export u
          (GDPRCompliance.erase_user_data u st)).access_logs = []
      ∧ (∀ (i j : Nat) (l0 m0 : GDPRCompliance.DataAccessLog),
          st.access_logs[i]? = some l0 → l0.user_id = u →
          st.access_logs[j]? = some m0 → m0.user_id = v →
          ((GDPRCompliance.erase_user_data v
              (GDPRCompliance.erase_user_data u st)).access_logs[i]?).map
            GDPRCompliance.DataAccessLog.user_id =
          ((GDPRCompliance.erase_user_data v
              (GDPRCompliance.erase_user_data u st)).access_logs[j]?).map
            GDPRCompliance.DataAccessLog.user_id)
      ∧ ((∀ l ∈ st.access_logs, l.user_id ≠ "DELETED_USER") →
          (GDPRCompliance.get_user_data_export "DELETED_USER"
            (GDPRCompliance.erase_user_data v
              (GDPRCompliance.erase_user_data u st))).access_logs =
          (st.access_logs.filter
            (fun l => l.user_id == u || l.user_id == v)).map
            GDPRCompliance.proj) := by
  intro st u v hu hv
  have hanon2 :
      ∀ (i : Nat) (l0 : GDPRCompliance.DataAccessLog),
        st.access_logs[i]? = some l0 → l0.user_id = u →
        ((GDPRCompliance.erase_user_data v
            (GDPRCompliance.erase_user_data u st)).access_logs[i]?).map
          GDPRCompliance.DataAccessLog.user_id = some "DELETED_USER" := by
    intro i l0 hi hl0
    have h1 : (GDPRCompliance.anonym u l0).user_id = "DELETED_USER" :=
      GDPRCompliance.anonym_hit hl0
    have h2 : GDPRCompliance.anonym v (GDPRCompliance.anonym u l0) =
        GDPRCompliance.anonym u l0 :=
      GDPRCompliance.anonym_keep (fun he => hv (he.symm.trans h1))
    simp [GDPRCompliance.erase_user_data, List.getElem?_map, hi, h2, h1]
  refine ⟨?_, ?_, ?_, ?_⟩
  · intro i l0 hi hl0
    simp [GDPRCompliance.erase_user_data, List.getElem?_map, hi,
      GDPRCompliance.anonym_hit hl0]
  · exact (claim_C6_amended st u hu).2.1
  · intro i j l0 m0 hi hl0 hj hm0
    have hx := hanon2 i l0 hi hl0
    have hy :
        ((GDPRCompliance.erase_user_data v
            (GDPRCompliance.erase_user_data u st)).access_logs[j]?).map
          GDPRCompliance.DataAccessLog.user_id = some "DELETED_USER" := by
      by_cases hmu : m0.user_id = u
      · exact hanon2 j m0 hj hmu
      · have h2 : GDPRCompliance.anonym u m0 = m0 :=
          GDPRCompliance.anonym_keep hmu
        have h3 : (GDPRCompliance.anonym v m0).user_id = "DELETED_USER" :=
          GDPRCompliance.anonym_hit hm0
        simp [GDPRCompliance.erase_user_data, List.getElem?_map, hj, h2, h3]
    rw [hx, hy]
  · intro hclean
    have := GDPRCompliance.export_deleted_aux u v hu hv st.access_logs hclean
    simpa [GDPRCompliance.get_user_data_export,
      GDPRCompliance.erase_user_data] using this

/-- Witness for C9 on the two-user ledger: erasing `"alice"` and `"bob"`
anonymizes both entries, empties the export of `"alice"`, makes the two
entries indistinguishable by user id, and hands both to the export of
`"DELETED_USER"`. -/
theorem claim_C9_witness :
    ((GDPRCompliance.erase_user_data "alice" c9st).access_logs[0]?).map
      GDPRCompliance.DataAccessLog.user_id = some "DELETED_USER" ∧
    (GDPRCompliance.get_user_data_export "alice"
      (GDPRCompliance.erase_user_data "alice" c9st)).access_logs = [] ∧
    ((GDPRCompliance.erase_user_data "bob"
        (GDPRCompliance.erase_user_data "alice" c9st)).access_logs[0]?).map
      GDPRCompliance.DataAccessLog.user_id =
    ((GDPRCompliance.erase_user_data "bob"
        (GDPRCompliance.erase_user_data "alice" c9st)).access_logs[1]?).map
      GDPRCompliance.DataAccessLog.user_id ∧
    (GDPRCompliance.get_user_data_export "DELETED_USER"
      (GDPRCompliance.erase_user_data "bob"
        (GDPRCompliance.erase_user_data "alice" c9st))).access_logs =
    (c9st.access_logs.filter
      (fun l => l.user_id == "alice" || l.user_id == "bob")).map
      GDPRCompliance.proj :=
  let h := claim_C9_anonymization c9st "alice" "bob" (by decide) (by decide)
  ⟨h.1 0 c9logA (by decide) (by decide),
   h.2.1,
   h.2.2.1 0 1 c9logA c9logB (by decide) (by decide) (by decide) (by decide),
   h.2.2.2 (by decide)⟩

/-- Claim C8: a registration call without consent fails with the
consent-required error and produces no templates (in both
`secure_user_registration` and `register_user_biometrics`); a call with
consent appends the consent record to the ledger, and the consent event
precedes every hashing and encryption event in the trace. -/
theorem claim_C8_consent_gate :
    ∀ (user_id : String) (voice_data face_data : List Nat)
      (consent_given : Bool) (vs fs : List Nat) (now : Nat)
      (gdpr : GDPRCompliance.State)
      (voice_sample face_image : Option (List Nat)),
      (consent_given = false →
        CarlSecurityManager.secure_user_registration user_id voice_data
          face_data consent_given vs fs now gdpr =
          .error "GDPR: User consent required!" ∧
        CARLCognitiveEngine.register_user_biometrics user_id voice_sample
          face_image consent_given =
          .error "GDPR: Felhasználói hozzájárulás szükséges!")
      ∧ (consent_given = true →
        CarlSecurityManager.secure_user_registration user_id voice_data
          face_data consent_given vs fs now gdpr =
          .ok (GDPRCompliance.record_consent user_id
                 "biometric_authentication" true now gdpr,
               { user_id := user_id,
                 voice_template :=
                   CarlSecurityManager.create_template voice_data vs,
                 face_template :=
                   CarlSecurityManager.create_template face_data fs },
               CarlSecurityManager.regEvents user_id) ∧
        (CarlSecurityManager.regEvents user_id).head? =
          some (.consentRecorded user_id "biometric_authentication" true) ∧
        (∀ (i : Nat) (m : String),
          (CarlSecurityManager.regEvents user_id)[i]? =
              some (.hashedTemplate m) ∨
          (CarlSecurityManager.regEvents user_id)[i]? =
              some (.encryptedTemplate m) → 0 < i)) := by
  intro user_id voice_data face_data consent_given vs fs now gdpr
    voice_sample face_image
  constructor
  · intro h
    subst h
    constructor
    · rfl
    · rfl
  · intro h
    subst h
    refine ⟨rfl, rfl, ?_⟩
    intro i m hi
    cases i with
    | zero =>
        rcases hi with hi | hi <;> simp [CarlSecurityManager.regEvents] at hi
    | succ n => exact Nat.succ_pos n

/-- Witness for C8: the refused registration at `consent = false` and the
successful one at `consent = true`, on concrete inputs. -/
theorem claim_C8_witness :
    (CarlSecurityManager.secure_user_registration "u" [1] [2] false [0] [3] 0
        { consents := [], access_logs := [] } =
      .error "GDPR: User consent required!") ∧
    (CARLCognitiveEngine.register_user_biometrics "u" none none false =
      .error "GDPR: Felhasználói hozzájárulás szükséges!") ∧
    (CarlSecurityManager.secure_user_registration "u" [1] [2] true [0] [3] 0
        { consents := [], access_logs := [] } =
      .ok (GDPRCompliance.record_consent "u" "biometric_authentication" true 0
             { consents := [], access_logs := [] },
           { user_id := "u",
             voice_template := CarlSecurityManager.create_template [1] [0],
             face_template := CarlSecurityManager.create_template [2] [3] },
           CarlSecurityManager.regEvents "u")) ∧
    (CarlSecurityManager.regEvents "u").head? =
      some (.consentRecorded "u" "biometric_authentication" true) :=
  let h := claim_C8_consent_gate "u" [1] [2] false [0] [3] 0
    { consents := [], access_logs := [] } none none
  let h2 := claim_C8_consent_gate "u" [1] [2] true [0] [3] 0
    { consents := [], access_logs := [] } none none
  ⟨(h.1 rfl).1, (h.1 rfl).2, (h2.2 rfl).1, (h2.2 rfl).2.1⟩

namespace AES256Encryption

theorem xorKs_invol (ks : Nat → Nat) :
    ∀ (l : List Nat) (i : Nat), xorKs ks (xorKs ks l i) i = l := by
  intro l
  induction l with
  | nil => intro i; rfl
  | cons b t ih =>
      intro i
      simp only [xorKs, Nat.xor_cancel_right, List.cons.injEq, true_and]
      exact ih (i + 1)

theorem xorKs_length (ks : Nat → Nat) :
    ∀ (l : List Nat) (i : Nat), (xorKs ks l i).length = l.length := by
  intro l
  induction l with
  | nil => intro i; rfl
  | cons b t ih =>
      intro i
      simp only [xorKs, List.length_cons, ih (i + 1)]

/-- Two Horner folds that start from different accumulators stay different
when the evaluation point is nonzero. -/
theorem foldl_horner_ne {F : Type} [Field F] (β : Nat → F) (H : F)
    (hH : H ≠ 0) :
    ∀ (l : List Nat) (a b : F), a ≠ b →
      l.foldl (fun acc x => acc * H + β x) a ≠
      l.foldl (fun acc x => acc * H + β x) b := by
  intro l
  induction l with
  | nil => intro a b hab; exact hab
  | cons x t ih =>
      intro a b hab
      simp only [List.foldl_cons]
      apply ih
      intro he
      exact hab (mul_right_cancel₀ hH (add_right_cancel he))

/-- Changing one coefficient (below the fold's end) to one with a different
embedding changes a Horner fold, when the evaluation point is nonzero. -/
theorem foldl_set_ne {F : Type} [Field F] (β : Nat → F) (H : F)
    (hH : H ≠ 0) :
    ∀ (l : List Nat) (i : Nat), i < l.length →
      ∀ v : Nat, β v ≠ β (l.getD i 0) →
      ∀ a : F,
        (l.set i v).foldl (fun acc x => acc * H + β x) a ≠
        l.foldl (fun acc x => acc * H + β x) a := by
  intro l
  induction l with
  | nil =>
      intro i hi
      cases hi
  | cons x t ih =>
      intro i hi v hv a
      cases i with
      | zero =>
          simp only [List.set, List.foldl_cons]
          apply foldl_horner_ne β H hH
          intro he
          exact hv (by simpa using add_left_cancel he)
      | succ n =>
          simp only [List.set, List.foldl_cons]
          exact ih n (by simpa using hi) v (by simpa using hv) _

end AES256Encryption

/-- Claim C4: decrypting a blob produced by `encrypt` under the same vault
instance (same key material: keystream, hash subkey, pad and block
embedding) returns exactly the plaintext, for every plaintext, every
optional associated data and every nonce. -/
theorem claim_C4_roundtrip :
    ∀ (F : Type) [Field F] [DecidableEq F] (β : Nat → F) (H : F)
      (ek0F : List Nat → F) (ksF : List Nat → Nat → Nat)
      (plaintext aad iv : List Nat),
      AES256Encryption.decrypt β H ek0F ksF
        (AES256Encryption.encrypt β H ek0F ksF plaintext aad iv) =
        some plaintext := by
  intro F _ _ β H ek0F ksF plaintext aad iv
  have h := AES256Encryption.xorKs_invol (ksF iv) plaintext 0
  simp [AES256Encryption.encrypt, AES256Encryption.decrypt, h]

namespace AES256Encryption

theorem xor_pow_ne (c j : Nat) : c ^^^ (1 <<< j) ≠ c := by
  intro he
  have h2 : c ^^^ (c ^^^ (1 <<< j)) = c ^^^ c := congrArg (c ^^^ ·) he
  have h1 : (1 <<< j) = 0 := by
    simpa [Nat.xor_cancel_left, Nat.xor_self] using h2
  have h3 : (0 : Nat) < 1 <<< j := by
    rw [Nat.shiftLeft_eq]
    positivity
  omega

/-- Flipping one bit of one ciphertext byte changes the authentication tag,
provided the block embedding is injective and the hash subkey is nonzero. -/
theorem polyTag_set_ne {F : Type} [Field F] (β : Nat → F) (H ek0 : F)
    (hβ : Function.Injective β) (hH : H ≠ 0) (aad ct : List Nat)
    (i j : Nat) (hi : i < ct.length) :
    polyTag β H ek0 aad (ct.set i (ct.getD i 0 ^^^ (1 <<< j))) ≠
      polyTag β H ek0 aad ct := by
  unfold polyTag
  intro he
  have he2 := add_right_cancel he
  rw [List.length_set] at he2
  rw [List.foldl_append, List.foldl_append, List.foldl_append,
    List.foldl_append] at he2
  have hmid :
      (List.foldl (fun acc x => acc * H + β x)
        (List.foldl (fun acc x => acc * H + β x) 0 aad)
        (ct.set i (ct.getD i 0 ^^^ (1 <<< j)))) ≠
      (List.foldl (fun acc x => acc * H + β x)
        (List.foldl (fun acc x => acc * H + β x) 0 aad) ct) :=
    foldl_set_ne β H hH ct i hi _
      (fun hbe => xor_pow_ne (ct.getD i 0) j (hβ hbe)) _
  exact foldl_horner_ne β H hH
    [aad.length * 18446744073709551616 + ct.length] _ _ hmid he2

end AES256Encryption

/-- Claim C3: tampering with a blob produced by `encrypt` is always caught —
flipping any bit of any ciphertext byte, or replacing the tag by any other
value, makes `decrypt` under the same key material fail with `none`, so no
plaintext (full or partial) is ever released for a tampered blob.  The
hypotheses are GCM's standing assumptions: the block embedding into the
field is injective and the hash subkey is nonzero. -/
theorem claim_C3_tamper_detected :
    ∀ (F : Type) [Field F] [DecidableEq F] (β : Nat → F) (H : F)
      (ek0F : List Nat → F) (ksF : List Nat → Nat → Nat)
      (plaintext aad iv : List Nat),
      Function.Injective β → H ≠ 0 →
      (∀ i : Nat, i < plaintext.length → ∀ j : Nat, j < 8 →
        AES256Encryption.decrypt β H ek0F ksF
          (AES256Encryption.tamperCt
            (AES256Encryption.encrypt β H ek0F ksF plaintext aad iv) i j) =
          none)
      ∧ (∀ t : F,
          t ≠ (AES256Encryption.encrypt β H ek0F ksF plaintext aad iv).tag →
          AES256Encryption.decrypt β H ek0F ksF
            (AES256Encryption.tamperTag
              (AES256Encryption.encrypt β H ek0F ksF plaintext aad iv) t) =
          none) := by
  intro F _ _ β H ek0F ksF plaintext aad iv hβ hH
  constructor
  · intro i hi j hj
    have hlen : i < (AES256Encryption.xorKs (ksF iv) plaintext 0).length := by
      rw [AES256Encryption.xorKs_length]
      exact hi
    have hne := AES256Encryption.polyTag_set_ne β H (ek0F iv) hβ hH aad
      (AES256Encryption.xorKs (ksF iv) plaintext 0) i j hlen
    simp only [AES256Encryption.decrypt, AES256Encryption.tamperCt,
      AES256Encryption.encrypt]
    rw [if_neg hne]
  · intro t ht
    simp only [AES256Encryption.decrypt, AES256Encryption.tamperTag,
      AES256Encryption.encrypt]
    rw [if_neg (fun he => ht he.symm)]

/-- Witness for C3 over the rationals with `β` the canonical embedding and
`H = 2`: flipping bit 0 of ciphertext byte 0, or adding one to the tag, of
the blob encrypting `[5]`, makes decryption fail. -/
theorem claim_C3_witness :
    AES256Encryption.decrypt (Nat.cast : Nat → ℚ) 2 (fun _ => 0)
      (fun _ _ => 0)
      (AES256Encryption.tamperCt
        (AES256Encryption.encrypt (Nat.cast : Nat → ℚ) 2 (fun _ => 0)
          (fun _ _ => 0) [5] [] []) 0 0) = none ∧
    AES256Encryption.decrypt (Nat.cast : Nat → ℚ) 2 (fun _ => 0)
      (fun _ _ => 0)
      (AES256Encryption.tamperTag
        (AES256Encryption.encrypt (Nat.cast : Nat → ℚ) 2 (fun _ => 0)
          (fun _ _ => 0) [5] [] [])
        ((AES256Encryption.encrypt (Nat.cast : Nat → ℚ) 2 (fun _ => 0)
          (fun _ _ => 0) [5] [] []).tag + 1)) = none :=
  let h := claim_C3_tamper_detected ℚ (Nat.cast) 2 (fun _ => 0) (fun _ _ => 0)
    [5] [] [] Nat.cast_injective (by norm_num)
  ⟨h.1 0 (by decide) 0 (by decide),
   h.2 _ (lt_add_one _).ne'⟩
